import Mathlib

/-!
Shallow embedding of the torec subtitle provider
(src/subliminal/providers/torec.py) together with proofs about the claims
of its specification.  HTTP traffic is modelled by an explicit environment
mapping each fetched URL to the scraped facet the code reads from that
page; Python dynamic typing is modelled with small sum types wherever the
source lets a variable hold values of several types; raised Python
exceptions are modelled with Except.
-/

namespace Torec

/-- Media type codes of the TorecMediaTypes enum (torec.py lines 23-26). -/
inductive TorecMediaTypes where
  | SERIES_WITH_SUBTITLES
  | MOVIE_WITHOUT_SUBTITLES
  | MOVIE_WITH_SUBTITLES
deriving DecidableEq, Repr

/-- Numeric value of each media type code. -/
def TorecMediaTypes.val : TorecMediaTypes → Nat
  | .SERIES_WITH_SUBTITLES => 3
  | .MOVIE_WITHOUT_SUBTITLES => 7
  | .MOVIE_WITH_SUBTITLES => 10

/-- A babelfish Language value, identified by its alpha2 code. -/
structure Language where
  alpha2 : String
deriving DecidableEq, Repr

/-- The Language.fromalpha2 constructor of babelfish. -/
def Language.fromalpha2 (s : String) : Language := ⟨s⟩

/-- One autocomplete suggestion as consumed by query: a dict carrying a
numeric type code and a relative url under its data key. -/
structure Suggestion where
  type : Nat
  data : String
deriving DecidableEq, Repr

/-- Value of the local variable named title inside query: initially the
str argument, but rebound to a Suggestion dict by the year loops, whose
loop variable shadows it (torec.py lines 189 and 228). -/
inductive TitleVal where
  | str (s : String)
  | sugg (c : Suggestion)
deriving DecidableEq, Repr

/-- Python exceptions raised by the embedded code. -/
inductive PyError where
  | configurationError
  | authenticationError (username : Option String)
  | httpError (status : Nat)
  | typeError
  | indexError
  | attributeError
deriving DecidableEq, Repr

/-- The dynamic value arriving in the year parameter of query: callers
pass None, an int (list_subtitles forwards video.season positionally into
this slot) or a str. -/
inductive PyYear where
  | noneV
  | intV (n : Nat)
  | strV (s : String)
deriving DecidableEq, Repr

/-- Python truthiness of the year parameter. -/
def pyTruthyYear : PyYear → Bool
  | .noneV => false
  | .intV n => n ≠ 0
  | .strV s => s ≠ ""

/-- Python truthiness of an optional int: None and 0 are falsy. -/
def pyTruthyNatOpt : Option Nat → Bool
  | none => false
  | some n => n ≠ 0

/-- Injection of an optional int into the dynamic year slot, as happens
when list_subtitles passes its season local positionally into the year
parameter of query (torec.py line 295). -/
def pyYearOfOptNat : Option Nat → PyYear
  | none => .noneV
  | some n => .intV n

/-- Lexicographic code point comparison of Python strings (less or
equal), on their character lists. -/
def strLe : List Char → List Char → Bool
  | [], _ => true
  | _ :: _, [] => false
  | x :: xs, y :: ys => if x = y then strLe xs ys else decide (x < y)

/-- Python comparison s1 <= s2 on two strings. -/
def pyStrLe (a b : String) : Bool := strLe a.data b.data

/-- Python comparison str <= year: a TypeError unless year is a str. -/
def pyLeStrYear (s : String) (y : PyYear) : Except PyError Bool :=
  match y with
  | .strV t => .ok (pyStrLe s t)
  | _ => .error .typeError

/-- Python comparison year <= str: a TypeError unless year is a str. -/
def pyLeYearStr (y : PyYear) (s : String) : Except PyError Bool :=
  match y with
  | .strV t => .ok (pyStrLe t s)
  | _ => .error .typeError

/-- Python equality year == str: False on a type mismatch, no error. -/
def pyEqYearStr (y : PyYear) (s : String) : Bool :=
  match y with
  | .strV t => t = s
  | _ => false

/-- Modelled from the spec: raise_for_status of the external HTTP client
library raises on any non-2xx response status. -/
def is2xx (status : Nat) : Bool := 200 ≤ status && status < 300

/-- The provider's HTTP world: each field returns the facet one scraping
step reads from the page fetched at the given url.  seriesYearText and
movieYearText are the texts of the year elements located by the fixed
CSS selectors (none when the selector matches nothing), seasonsTabs the
anchors (href, text) of each season tab in order, listingRows the
(id attribute, version text) pairs of the download rows. -/
structure Env where
  searchStatus : Nat
  suggestions : List Suggestion
  seriesYearText : String → Option String
  movieYearText : String → Option String
  seasonsTabs : String → List (List (String × String))
  pageStatus : String → Nat
  listingRows : String → List (String × String)

/-- The server_url class attribute of TorecProvider. -/
def serverUrl : String := "http://torec.net/"

/-- Four decimal digits test used by the year regex. -/
def d4 (l : List Char) : Bool := decide (l.length = 4) && l.all Char.isDigit

/-- One attempt of the regex (\d{4})?-?(\d{4}) at the head of cs,
following Python backtracking order over the optional first group and the
optional dash: the first group is tried greedily, then the dash, then the
mandatory second group; on failure the earlier options are given up in
order. -/
def yearMatchAt (cs : List Char) : Option (String × String) :=
  if d4 (cs.take 4) then
    match cs.drop 4 with
    | '-' :: r =>
      if d4 (r.take 4) then some (⟨cs.take 4⟩, ⟨r.take 4⟩) else some ("", ⟨cs.take 4⟩)
    | rest =>
      if d4 (rest.take 4) then some (⟨cs.take 4⟩, ⟨rest.take 4⟩) else some ("", ⟨cs.take 4⟩)
  else
    match cs with
    | '-' :: r => if d4 (r.take 4) then some ("", ⟨r.take 4⟩) else none
    | _ => none

/-- First match of re.findall with pattern (\d{4})?-?(\d{4}): scan the
positions left to right (torec.py line 196). -/
def findYearPair : List Char → Option (String × String)
  | [] => none
  | c :: tl =>
    match yearMatchAt (c :: tl) with
    | some p => some p
    | none => findYearPair tl

/-- First match of re.findall with pattern (\d+): the first maximal digit
run (torec.py line 238). -/
def findFirstDigitRun : List Char → Option String
  | [] => none
  | c :: tl =>
    if c.isDigit then some ⟨(c :: tl).takeWhile Char.isDigit⟩ else findFirstDigitRun tl

/-- The year containment test of the series branch on an already split
(start, end) pair for a str year: the chained string comparison
start <= year <= end when end is nonempty, else start <= year
(torec.py lines 197-204). -/
def seriesYearTestStr (p : String × String) (y : String) : Bool :=
  if p.2 ≠ "" then pyStrLe p.1 y && pyStrLe y p.2 else pyStrLe p.1 y

/-- The chained comparison series_year_start <= year <= series_year_end
and its open ended else branch, with Python evaluation order and a
TypeError whenever a str gets compared to a non-str year. -/
def seriesYearTestE (p : String × String) (year : PyYear) : Except PyError Bool :=
  if p.2 ≠ "" then
    match pyLeStrYear p.1 year with
    | .error e => .error e
    | .ok b1 => if b1 then pyLeYearStr year p.2 else .ok false
  else pyLeStrYear p.1 year

/-- The year disambiguation loop of the series branch (torec.py lines
189-204): fetch each candidate page, take the year element text, split it
with the year regex (a missing element or a failed findall raises
IndexError at the [0] index) and stop at the first candidate passing the
test.  Returns the chosen url together with the Suggestion that the
shadowed title variable now holds. -/
def seriesYearLoop (env : Env) (year : PyYear) :
    List Suggestion → Except PyError (Option (String × Suggestion))
  | [] => .ok none
  | c :: rest =>
    let url := serverUrl ++ c.data
    match env.seriesYearText url with
    | none => .error .indexError
    | some txt =>
      match findYearPair txt.data with
      | none => .error .indexError
      | some p =>
        match seriesYearTestE p year with
        | .error e => .error e
        | .ok true => .ok (some (url, c))
        | .ok false => seriesYearLoop env year rest

/-- The year disambiguation loop of the movie branch (torec.py lines
228-241): scrape the first digit run of the year element text and stop at
the first candidate whose digits compare equal to the requested year. -/
def movieYearLoop (env : Env) (year : PyYear) :
    List Suggestion → Except PyError (Option (String × Suggestion))
  | [] => .ok none
  | c :: rest =>
    let url := serverUrl ++ c.data
    match env.movieYearText url with
    | none => .error .indexError
    | some txt =>
      match findFirstDigitRun txt.data with
      | none => .error .indexError
      | some my =>
        if my ≠ "" && pyEqYearStr year my then .ok (some (url, c))
        else movieYearLoop env year rest

/-- A series candidate on which the year test is reached and evaluates to
false. -/
def seriesCandFailsB (env : Env) (y : String) (c : Suggestion) : Bool :=
  match env.seriesYearText (serverUrl ++ c.data) with
  | none => false
  | some txt =>
    match findYearPair txt.data with
    | none => false
    | some p => !(seriesYearTestStr p y)

/-- A movie candidate on which the year test is reached and evaluates to
false. -/
def movieCandFailsB (env : Env) (y : String) (c : Suggestion) : Bool :=
  match env.movieYearText (serverUrl ++ c.data) with
  | none => false
  | some txt =>
    match findFirstDigitRun txt.data with
    | none => false
    | some my => !(my ≠ "" && pyEqYearStr (.strV y) my)

/-- Python dict assignment on an association list: overwrite the first
binding of the key or append a fresh binding at the end. -/
def dinsert {α β : Type} [DecidableEq α] : List (α × β) → α → β → List (α × β)
  | [], k, v => [(k, v)]
  | (k1, v1) :: tl, k, v =>
    if k1 = k then (k1, v) :: tl else (k1, v1) :: dinsert tl k v

/-- Python dict .get on an association list. -/
def dget {α β : Type} [DecidableEq α] : List (α × β) → α → Option β
  | [], _ => none
  | (k1, v1) :: tl, k => if k1 = k then some v1 else dget tl k

/-- A key of the episodes dict: range anchors insert int keys, single
number anchors insert str keys (torec.py lines 160-163); Python keeps the
two kinds distinct. -/
inductive EpKey where
  | intK (n : Nat)
  | strK (s : String)
deriving DecidableEq, Repr

/-- First match of re.findall with pattern (\d+)-?(\d+)? on an anchor
text (torec.py lines 150, 156-158). -/
def findEpisodePair : List Char → Option (String × String)
  | [] => none
  | c :: tl =>
    if c.isDigit then
      let a := (c :: tl).takeWhile Char.isDigit
      match (c :: tl).drop a.length with
      | '-' :: r2 => some (⟨a⟩, ⟨r2.takeWhile Char.isDigit⟩)
      | _ => some (⟨a⟩, "")
    else findEpisodePair tl

/-- Python int() of a decimal digit string. -/
def natOfDigits (s : String) : Nat :=
  s.data.foldl (fun acc c => acc * 10 + (c.toNat - 48)) 0

/-- Processing of one episode anchor (torec.py lines 154-163): a matched
range start-end inserts the int keys start..end, all mapped to the anchor
url; a single matched number inserts its str form as the key; unmatched
text inserts nothing. -/
def addAnchor (episodes : List (EpKey × String)) (href text : String) :
    List (EpKey × String) :=
  match findEpisodePair text.data with
  | none => episodes
  | some (s, e) =>
    if e ≠ "" then
      (List.range' (natOfDigits s) (natOfDigits e + 1 - natOfDigits s)).foldl
        (fun m k => dinsert m (.intK k) href) episodes
    else dinsert episodes (.strK s) href

/-- The episodes dict built from the anchors of one season tab. -/
def processTab (anchors : List (String × String)) : List (EpKey × String) :=
  anchors.foldl (fun eps a => addAnchor eps a.1 a.2) []

/-- The seasons dict built tab by tab: keys are 1-based in the order the
tabs are encountered (torec.py lines 152-166). -/
def buildSeasonsFrom (idx : Nat) :
    List (List (String × String)) → List (Nat × List (EpKey × String))
  | [] => []
  | t :: rest => (idx + 1, processTab t) :: buildSeasonsFrom (idx + 1) rest

/-- The full season to episodes mapping of a series page. -/
def buildSeasons (tabs : List (List (String × String))) :
    List (Nat × List (EpKey × String)) :=
  buildSeasonsFrom 0 tabs

/-- The _get_episode_subtitles_from_series_page method (torec.py lines
143-170): scrape the season tabs and look the requested season and
episode up via subtitles.get(season, dict()).get(episode); the falsy
returns (the empty dict when there are no tabs, a missing key) are merged
into none. -/
def TorecProvider._get_episode_subtitles_from_series_page (env : Env)
    (series_url : String) (season episode : Option Nat) : Option String :=
  match env.seasonsTabs series_url with
  | [] => none
  | t :: ts =>
    let subtitles := buildSeasons (t :: ts)
    match season with
    | none => none
    | some s =>
      let eps := (dget subtitles s).getD []
      match episode with
      | none => none
      | some e => dget eps (.intK e)

/-- An anchor that contributes no int key: unmatched text, or a single
episode number whose second regex group is empty. -/
def anchorSingle (a : String × String) : Bool :=
  match findEpisodePair (a.2).data with
  | some p => p.2 = ""
  | none => true

/-- Every anchor of every tab is single or unmatched. -/
def allSingleAnchors (tabs : List (List (String × String))) : Bool :=
  tabs.all (fun t => t.all anchorSingle)

/-- One anchored attempt of re.match with pattern .+sub_id=(\d+): the
greedy dot-plus part must place the literal sub_id= at a position i of at
least 1, with no newline before it and a digit right after it. -/
def subIdOk (cs : List Char) (i : Nat) : Bool :=
  decide (1 ≤ i) && (cs.take i).all (fun c => c ≠ '\n') &&
    "sub_id=".data.isPrefixOf (cs.drop i) &&
    (match cs.drop (i + 7) with
     | c :: _ => c.isDigit
     | [] => false)

/-- The position the greedy dot-plus settles on: the greatest workable
index. -/
def subIdPos (cs : List Char) : Option Nat :=
  (List.range (cs.length + 1)).reverse.find? (subIdOk cs)

/-- The re.match of pattern .+sub_id=(\d+) against the url (torec.py
line 259): the whole match (group 0, anchored at the start of the url)
and the digits group (group 1), when the url matches at all. -/
def reMatchSubId (url : String) : Option (String × String) :=
  match subIdPos url.data with
  | none => none
  | some i =>
    let g1 := (url.data.drop (i + 7)).takeWhile Char.isDigit
    some (⟨url.data.take (i + 7 + g1.length)⟩, ⟨g1⟩)

/-- The stored subtitle id (torec.py line 259): the expression
re.match(..).group()[0], i.e. the first character of the whole match, as
a one character string; none models the AttributeError when the url does
not match. -/
def extractedSubtitleId (url : String) : Option String :=
  (reMatchSubId url).map (fun m => ⟨(m.1).data.take 1⟩)

/-- The re.search of pattern dlRow_(.+) used by find_all on a row id:
some position carries the literal followed by at least one non-newline
character. -/
def searchDlRow : List Char → Bool
  | [] => false
  | c :: tl =>
    ("dlRow_".data.isPrefixOf (c :: tl) &&
      (match ((c :: tl).drop 6).takeWhile (fun d => d ≠ '\n') with
       | [] => false
       | _ :: _ => true)) || searchDlRow tl

/-- The re.match of pattern dlRow_(.+) on a row id (torec.py line 268):
the greedy group runs to the end of the line; when the id does not start
with the literal the match is None and reading its groups raises. -/
def matchDlCode (rid : String) : Except PyError String :=
  if "dlRow_".data.isPrefixOf rid.data then
    match (rid.data.drop 6).takeWhile (fun d => d ≠ '\n') with
    | [] => .error .attributeError
    | g => .ok ⟨g⟩
  else .error .attributeError

/-- The release to download code mapping scraped from the listing rows
(torec.py lines 262-269): the rows whose id the regex finds, keyed by the
version text, valued by the id suffix after the dlRow_ literal. -/
def buildDlMapping (rows : List (String × String)) :
    Except PyError (List (String × String)) :=
  (rows.filter (fun r => searchDlRow (r.1).data)).foldlM
    (fun acc r =>
      match matchDlCode r.1 with
      | .error e => .error e
      | .ok code => .ok (dinsert acc r.2 code)) []

/-- The TorecSubtitle record as constructed by query (torec.py lines
33-42 and 272-280); the series and title fields receive whatever the
local title variable holds at construction time, hence their dynamic
type. -/
structure TorecSubtitle where
  language : Language
  hearing_impaired : Bool
  page_link : String
  series : TitleVal
  season : Option Nat
  episode : Option Nat
  title : TitleVal
  subtitle_id : String
  releases_to_dl_codes_mapping : List (String × String)
deriving DecidableEq, Repr

/-- Lines 253-284 of torec.py: fetch the listing page, raise on a bad
status, extract the stored subtitle id from the url, scrape the download
code rows and construct the single TorecSubtitle. -/
def buildSubtitleFromListing (env : Env) (url : String) (titleVar : TitleVal)
    (season episode : Option Nat) : Except PyError TorecSubtitle :=
  if ¬ is2xx (env.pageStatus url) then .error (.httpError (env.pageStatus url))
  else
    match extractedSubtitleId url with
    | none => .error .attributeError
    | some sid =>
      match buildDlMapping (env.listingRows url) with
      | .error e => .error e
      | .ok mapping =>
        .ok { language := Language.fromalpha2 "he", hearing_impaired := false,
              page_link := url, series := titleVar, season := season,
              episode := episode, title := titleVar, subtitle_id := sid,
              releases_to_dl_codes_mapping := mapping }

/-- The TorecProvider.query method (torec.py lines 172-284). -/
def TorecProvider.query (env : Env) (title : String) (year : PyYear)
    (season episode : Option Nat) : Except PyError (List TorecSubtitle) :=
  if ¬ is2xx env.searchStatus then .error (.httpError env.searchStatus)
  else
    match env.suggestions with
    | [] => .ok []
    | s0 :: srest =>
      let url_titles := s0 :: srest
      if pyTruthyNatOpt season && pyTruthyNatOpt episode then
        match url_titles.filter
            (fun i => i.type = TorecMediaTypes.SERIES_WITH_SUBTITLES.val) with
        | [] => .ok []
        | c0 :: crest =>
          let chosen : Except PyError (Option (String × TitleVal)) :=
            if pyTruthyYear year then
              match seriesYearLoop env year (c0 :: crest) with
              | .error e => .error e
              | .ok none => .ok none
              | .ok (some (u, c)) => .ok (some (u, .sugg c))
            else .ok (some (serverUrl ++ c0.data, .str title))
          match chosen with
          | .error e => .error e
          | .ok none => .ok []
          | .ok (some (url_title, titleVar)) =>
            match TorecProvider._get_episode_subtitles_from_series_page env
                url_title season episode with
            | none => .ok []
            | some w =>
              if w = "" then .ok []
              else
                match buildSubtitleFromListing env (serverUrl ++ w) titleVar
                    season episode with
                | .error e => .error e
                | .ok sub => .ok [sub]
      else
        match url_titles.filter
            (fun i => i.type = TorecMediaTypes.MOVIE_WITH_SUBTITLES.val) with
        | [] => .ok []
        | c0 :: crest =>
          let chosen : Except PyError (Option (String × TitleVal)) :=
            if pyTruthyYear year then
              match movieYearLoop env year (c0 :: crest) with
              | .error e => .error e
              | .ok none => .ok none
              | .ok (some (u, c)) => .ok (some (u, .sugg c))
            else .ok (some (serverUrl ++ c0.data, .str title))
          match chosen with
          | .error e => .error e
          | .ok none => .ok []
          | .ok (some (url_title, titleVar)) =>
            match buildSubtitleFromListing env url_title titleVar season episode with
            | .error e => .error e
            | .ok sub => .ok [sub]

/-- An Episode video as consumed by get_matches and list_subtitles. -/
structure EpisodeVid where
  series : String
  season : Nat
  episode : Nat
  title : String
deriving DecidableEq, Repr

/-- A Movie video. -/
structure MovieVid where
  title : String
deriving DecidableEq, Repr

/-- The video argument of get_matches and list_subtitles. -/
inductive Video where
  | ep (v : EpisodeVid)
  | mov (m : MovieVid)
deriving DecidableEq, Repr

/-- The TorecProvider.list_subtitles method (torec.py lines 286-295): it
builds the title, season and episode locals and then calls query
positionally as query(title, season, episode), so the season value lands
in the year parameter slot and the episode value in the season slot,
while the episode parameter keeps its None default. -/
def TorecProvider.list_subtitles (env : Env) (video : Video)
    (languages : List Language) : Except PyError (List TorecSubtitle) :=
  let args :=
    match video with
    | .ep v => (v.series, (some v.season : Option Nat), (some v.episode : Option Nat))
    | .mov m => (m.title, (none : Option Nat), (none : Option Nat))
  match TorecProvider.query env args.1 (pyYearOfOptNat args.2.1) args.2.2 none with
  | .error e => .error e
  | .ok subs => .ok (subs.filter (fun s => languages.contains s.language))

/-- Application of the external sanitize helper to the dynamic series or
title field of the record: a TypeError when the field holds a Suggestion
dict instead of a str. -/
def sanitizeVal (san : String → String) : TitleVal → Except PyError String
  | .str s => .ok (san s)
  | .sugg _ => .error .typeError

/-- The TorecSubtitle.get_matches method (torec.py lines 48-75).  The
external sanitize helper and the label sets that guess_matches infers
from each release string (for the episode and movie guessit
configurations) are parameters; the matches set is modelled as a list
with set membership semantics.  Python short-circuit evaluation of the
conditions is preserved. -/
def TorecSubtitle.get_matches (san : String → String)
    (guessEp guessMov : String → List String) (self : TorecSubtitle)
    (video : Video) : Except PyError (List String) :=
  match video with
  | .ep v =>
    match (if v.series ≠ "" then
             (sanitizeVal san self.series).map
               (fun s => if s = san v.series then ["series"] else [])
           else .ok []) with
    | .error e => .error e
    | .ok m1 =>
      let m2 := if v.season ≠ 0 ∧ self.season = some v.season then ["season"] else []
      let m3 := if v.episode ≠ 0 ∧ self.episode = some v.episode then ["episode"] else []
      let mg := (self.releases_to_dl_codes_mapping.map Prod.fst).foldl
        (fun acc r => acc ++ guessEp r) []
      match (if v.title ≠ "" then
               (sanitizeVal san self.title).map
                 (fun s => if s = san v.title then ["title"] else [])
             else .ok []) with
      | .error e => .error e
      | .ok mt => .ok (m1 ++ m2 ++ m3 ++ mg ++ mt)
  | .mov m =>
    let mg := (self.releases_to_dl_codes_mapping.map Prod.fst).foldl
      (fun acc r => acc ++ guessMov r) []
    match (if m.title ≠ "" then
             (sanitizeVal san self.title).map
               (fun s => if s = san m.title then ["title"] else [])
           else .ok []) with
    | .error e => .error e
    | .ok mt => .ok (mg ++ mt)

/-- The HTTP client object, tracked by whether close was called on it. -/
structure SessionSt where
  closed : Bool
deriving DecidableEq, Repr

/-- The provider object state. -/
structure PState where
  session : Option SessionSt
  username : Option String
  password : Option String
  logged_in : Bool
deriving DecidableEq, Repr

/-- The TorecProvider constructor (torec.py lines 83-90): supplying
exactly one credential raises ConfigurationError; Python operator
precedence groups the condition as (u set and p missing) or (u missing
and p set). -/
def TorecProvider.init (username password : Option String) :
    Except PyError PState :=
  if (username ≠ none ∧ password = none) ∨ (username = none ∧ password ≠ none) then
    .error .configurationError
  else
    .ok { session := none, username := username, password := password,
          logged_in := false }

/-- The provider startup method (initialize, torec.py lines 92-110), returning
the new object state, whether the login POST was issued, and the raised
error if any: a fresh client is always created; with both credentials
present a login response body equal to the single byte 49 (the literal
ASCII digit one) raises AuthenticationError carrying the username, and
any other body marks the provider logged in. -/
def TorecProvider.initializeProvider (st : PState) (loginBody : List Nat) :
    PState × Bool × Except PyError Unit :=
  let st1 : PState := { st with session := some { closed := false } }
  if st1.username ≠ none ∧ st1.password ≠ none then
    if loginBody = [49] then (st1, true, .error (.authenticationError st1.username))
    else ({ st1 with logged_in := true }, true, .ok ())
  else (st1, false, .ok ())

/-- The TorecProvider.terminate method (torec.py lines 112-121), returning
the final object state and the raised error if any: when logged in a
logout GET is issued and raise_for_status raises on a non-2xx status,
which skips the close call entirely; otherwise the logged-in flag is
cleared (when set) and the client closed. -/
def TorecProvider.terminate (st : PState) (logoutStatus : Nat) :
    PState × Except PyError Unit :=
  match st.session with
  | none => (st, .error .attributeError)
  | some _ =>
    if st.logged_in then
      if ¬ is2xx logoutStatus then (st, .error (.httpError logoutStatus))
      else ({ st with logged_in := false, session := some { closed := true } }, .ok ())
    else ({ st with session := some { closed := true } }, .ok ())

/-- Concrete subtitle record for the get_matches counterexample: its
season 0 equals the video's season 0. -/
def subC6 : TorecSubtitle :=
  { language := ⟨"he"⟩, hearing_impaired := false, page_link := "",
    series := .str "a", season := some 0, episode := some 2, title := .str "b",
    subtitle_id := "1", releases_to_dl_codes_mapping := [] }

/-- Concrete Episode video (a season-0 special) for the get_matches
counterexample. -/
def vidC6 : EpisodeVid := ⟨"a", 0, 2, "c"⟩

/-- Concrete subtitle record for the get_matches witness. -/
def subC6w : TorecSubtitle :=
  { language := ⟨"he"⟩, hearing_impaired := false, page_link := "",
    series := .str "Game of Thrones", season := some 3, episode := some 10,
    title := .str "Mhysa", subtitle_id := "1", releases_to_dl_codes_mapping := [] }

/-- Concrete Episode video for the get_matches witness. -/
def vidC6w : EpisodeVid := ⟨"Game of Thrones", 3, 10, "Mhysa"⟩

/-- Concrete url for the sub_id extraction counterexample. -/
def urlC2 : String := "http://x/sub.asp?sub_id=1234"

/-- Concrete url for the sub_id extraction witness. -/
def urlC2w : String := "http://torec.net/sub.asp?sub_id=907"

/-- Concrete provider state for the initialize witness. -/
def stC10w : PState :=
  { session := none, username := some "u", password := some "p", logged_in := false }

/-- Concrete provider state for the terminate witness. -/
def stC8w : PState :=
  { session := some { closed := false }, username := none, password := none,
    logged_in := false }

/-- Concrete logged-in provider state for the terminate counterexample. -/
def stC8 : PState :=
  { session := some { closed := false }, username := some "u", password := some "p",
    logged_in := true }

/-- Concrete environment for the single-number-anchor witness. -/
def envC5w : Env :=
  { searchStatus := 200, suggestions := [], seriesYearText := fun _ => none,
    movieYearText := fun _ => none, seasonsTabs := fun _ => [[("u", "7")]],
    pageStatus := fun _ => 200, listingRows := fun _ => [] }

/-- Concrete environment for the year containment counterexample: one
series candidate whose scraped year text is the single year 2003, and a
series page resolving season 1 episode 5. -/
def envC3 : Env :=
  { searchStatus := 200,
    suggestions := [⟨3, "s1"⟩],
    seriesYearText := fun u => if u = "http://torec.net/s1" then some "2003" else none,
    movieYearText := fun _ => none,
    seasonsTabs := fun u =>
      if u = "http://torec.net/s1" then [[("e.asp?sub_id=42", "5-8")]] else [],
    pageStatus := fun _ => 200,
    listingRows := fun _ => [] }

/-- The record the year containment counterexample run returns. -/
def subC3 : TorecSubtitle :=
  { language := ⟨"he"⟩, hearing_impaired := false,
    page_link := "http://torec.net/e.asp?sub_id=42",
    series := .sugg ⟨3, "s1"⟩, season := some 1, episode := some 5,
    title := .sugg ⟨3, "s1"⟩, subtitle_id := "h",
    releases_to_dl_codes_mapping := [] }

/-- Concrete environment for the no-year-match witness: one series and
one movie candidate, both with year texts that fail the tests for the
requested year 2010. -/
def envC3w : Env :=
  { searchStatus := 200,
    suggestions := [⟨3, "a"⟩, ⟨10, "b"⟩],
    seriesYearText := fun _ => some "1999-2005",
    movieYearText := fun _ => some "1999",
    seasonsTabs := fun _ => [],
    pageStatus := fun _ => 200,
    listingRows := fun _ => [] }

/-- Concrete environment for the title shadowing counterexample: one
series candidate whose year range 1999-2005 contains the requested year
2003, so the year loop runs and rebinds the title variable. -/
def envC7 : Env :=
  { searchStatus := 200,
    suggestions := [⟨3, "s1"⟩],
    seriesYearText := fun u =>
      if u = "http://torec.net/s1" then some "1999-2005" else none,
    movieYearText := fun _ => none,
    seasonsTabs := fun u =>
      if u = "http://torec.net/s1" then [[("e.asp?sub_id=42", "5-8")]] else [],
    pageStatus := fun _ => 200,
    listingRows := fun _ => [] }

/-- The record the title shadowing counterexample run returns: its series
and title fields hold the candidate Suggestion, not the supplied title. -/
def subC7 : TorecSubtitle :=
  { language := ⟨"he"⟩, hearing_impaired := false,
    page_link := "http://torec.net/e.asp?sub_id=42",
    series := .sugg ⟨3, "s1"⟩, season := some 1, episode := some 5,
    title := .sugg ⟨3, "s1"⟩, subtitle_id := "h",
    releases_to_dl_codes_mapping := [] }

/-- Concrete environment with no suggestions, for the record fields
witness. -/
def envC7w : Env :=
  { searchStatus := 200, suggestions := [], seriesYearText := fun _ => none,
    movieYearText := fun _ => none, seasonsTabs := fun _ => [],
    pageStatus := fun _ => 200, listingRows := fun _ => [] }

/-- Looking a key up right after inserting it finds the new value. -/
theorem dget_dinsert_self {α β : Type} [DecidableEq α]
    (m : List (α × β)) (k : α) (v : β) : dget (dinsert m k v) k = some v := by
  induction m with
  | nil => simp [dinsert, dget]
  | cons hd tl ih =>
    obtain ⟨k1, v1⟩ := hd
    by_cases hk : k1 = k
    · simp [dinsert, dget, hk]
    · simp [dinsert, dget, hk, ih]

/-- Inserting one key leaves the bindings of every other key unchanged. -/
theorem dget_dinsert_ne {α β : Type} [DecidableEq α]
    (m : List (α × β)) (k k2 : α) (v : β) (hne : k2 ≠ k) :
    dget (dinsert m k v) k2 = dget m k2 := by
  induction m with
  | nil => simp [dinsert, dget, Ne.symm hne]
  | cons hd tl ih =>
    obtain ⟨k1, v1⟩ := hd
    by_cases hk : k1 = k
    · subst hk
      simp [dinsert, dget, Ne.symm hne]
    · by_cases hk2 : k1 = k2
      · simp [dinsert, dget, hk, hk2, hne]
      · simp [dinsert, dget, hk, hk2, ih]

/-- Folding int-key insertions over a list of numbers not containing the
looked-up key leaves that key's binding unchanged. -/
theorem dget_foldl_insert_not_mem (l : List Nat) (m : List (EpKey × String))
    (href : String) (k : EpKey) (hk : ∀ x ∈ l, EpKey.intK x ≠ k) :
    dget (l.foldl (fun acc x => dinsert acc (.intK x) href) m) k = dget m k := by
  induction l generalizing m with
  | nil => rfl
  | cons x xs ih =>
    rw [List.foldl_cons]
    rw [ih (dinsert m (.intK x) href) (fun y hy => hk y (List.mem_cons_of_mem x hy))]
    exact dget_dinsert_ne _ _ _ _ (Ne.symm (hk x (List.mem_cons_self x xs)))

/-- Folding int-key insertions over a list of numbers containing the
looked-up key binds that key to the inserted value. -/
theorem dget_foldl_insert_mem (l : List Nat) (m : List (EpKey × String))
    (href : String) (k : Nat) (hk : k ∈ l) :
    dget (l.foldl (fun acc x => dinsert acc (.intK x) href) m) (.intK k) = some href := by
  induction l generalizing m with
  | nil => cases hk
  | cons x xs ih =>
    rw [List.foldl_cons]
    by_cases hx : k ∈ xs
    · exact ih _ hx
    · have hkx : k = x := by
        rcases List.mem_cons.mp hk with h | h
        · exact h
        · exact absurd h hx
      subst hkx
      rw [dget_foldl_insert_not_mem xs _ href (.intK k)
        (fun y hy he => hx (by rw [EpKey.intK.injEq] at he; rw [← he]; exact hy))]
      exact dget_dinsert_self _ _ _

/-- The 1-based seasons dict from index idx binds the key idx + i + 1 to
the processed i-th tab. -/
theorem dget_buildSeasonsFrom (tabs : List (List (String × String))) :
    ∀ (idx i : Nat) (h : i < tabs.length),
      dget (buildSeasonsFrom idx tabs) (idx + i + 1) = some (processTab tabs[i]) := by
  induction tabs with
  | nil => intro idx i h; exact absurd h (by simp)
  | cons t ts ih =>
    intro idx i h
    cases i with
    | zero => simp [buildSeasonsFrom, dget]
    | succ j =>
      have hstep : dget (buildSeasonsFrom idx (t :: ts)) (idx + (j + 1) + 1) =
          dget (buildSeasonsFrom (idx + 1) ts) (idx + (j + 1) + 1) := by
        simp [buildSeasonsFrom, dget, show idx + 1 ≠ idx + (j + 1) + 1 by omega]
      rw [hstep]
      have h2 : j < ts.length := by
        have := h
        simp only [List.length_cons] at this
        omega
      have hrec := ih (idx + 1) j h2
      rw [show idx + (j + 1) + 1 = idx + 1 + j + 1 by omega]
      rw [hrec]
      simp

/-- Every binding of the seasons dict is a processed tab of the input. -/
theorem dget_buildSeasonsFrom_mem (tabs : List (List (String × String))) :
    ∀ (idx s : Nat) (l : List (EpKey × String)),
      dget (buildSeasonsFrom idx tabs) s = some l →
      ∃ tab ∈ tabs, l = processTab tab := by
  induction tabs with
  | nil => intro idx s l h; exact absurd h (by simp [buildSeasonsFrom, dget])
  | cons t ts ih =>
    intro idx s l h
    simp only [buildSeasonsFrom, dget] at h
    by_cases hk : idx + 1 = s
    · rw [if_pos hk] at h
      exact ⟨t, List.mem_cons_self t ts, (Option.some.injEq _ _ ▸ h).symm⟩
    · rw [if_neg hk] at h
      obtain ⟨tab, htab, hl⟩ := ih (idx + 1) s l h
      exact ⟨tab, List.mem_cons_of_mem t htab, hl⟩

/-- Folding the anchor processing over single-number or unmatched anchors
never creates an int key. -/
theorem dget_foldl_addAnchor_single (t : List (String × String)) :
    ∀ (m : List (EpKey × String)) (e : Nat),
      t.all anchorSingle = true → dget m (.intK e) = none →
      dget (t.foldl (fun eps a => addAnchor eps a.1 a.2) m) (.intK e) = none := by
  induction t with
  | nil => intro m e _ hm; exact hm
  | cons a as ih =>
    intro m e h hm
    rw [List.foldl_cons]
    have hsplit : anchorSingle a = true ∧ as.all anchorSingle = true := by
      simpa [List.all_cons] using h
    apply ih _ e hsplit.2
    unfold addAnchor
    cases hf : findEpisodePair (a.2).data with
    | none => exact hm
    | some p =>
      obtain ⟨ps, pe⟩ := p
      have hpe : pe = "" := by simpa [anchorSingle, hf] using hsplit.1
      subst hpe
      simp only [ne_eq, not_true_eq_false, if_false, ite_false]
      rw [dget_dinsert_ne _ _ _ _ (by simp)]
      exact hm

/-- C4: an anchor whose text matches as an inclusive range start-end with
start less or equal end inserts exactly the b - a + 1 distinct int keys
a..b, each bound to that anchor's url, leaving every other key alone; and
the seasons dict keys are 1-based in tab-encounter order. -/
theorem torec_range_anchor_expansion :
    (∀ (m : List (EpKey × String)) (href text sa sb : String) (a b : Nat),
      findEpisodePair text.data = some (sa, sb) → sb ≠ "" →
      natOfDigits sa = a → natOfDigits sb = b → a ≤ b →
      (∀ k : Nat, a ≤ k → k ≤ b → dget (addAnchor m href text) (.intK k) = some href) ∧
      (∀ k : EpKey, (∀ j : Nat, a ≤ j → j ≤ b → k ≠ .intK j) →
        dget (addAnchor m href text) k = dget m k) ∧
      (List.range' a (b + 1 - a)).length = b - a + 1 ∧
      ((List.range' a (b + 1 - a)).map EpKey.intK).Nodup) ∧
    (∀ (tabs : List (List (String × String))) (i : Nat) (h : i < tabs.length),
      dget (buildSeasons tabs) (i + 1) = some (processTab tabs[i])) := by
  constructor
  · intro m href text sa sb a b hf hsb ha hb hab
    have haddeq : addAnchor m href text =
        (List.range' a (b + 1 - a)).foldl (fun acc k => dinsert acc (.intK k) href) m := by
      unfold addAnchor
      rw [hf]
      simp [hsb, ha, hb]
    refine ⟨?_, ?_, ?_, ?_⟩
    · intro k hak hkb
      rw [haddeq]
      exact dget_foldl_insert_mem _ _ _ _ (List.mem_range'_1.mpr ⟨hak, by omega⟩)
    · intro k hknotin
      rw [haddeq]
      apply dget_foldl_insert_not_mem
      intro x hx
      have hx2 := List.mem_range'_1.mp hx
      exact Ne.symm (hknotin x hx2.1 (by omega))
    · rw [List.length_range']
      omega
    · exact List.Nodup.map (fun x y hxy => EpKey.intK.inj hxy) (List.nodup_range' a (b + 1 - a))
  · intro tabs i h
    have := dget_buildSeasonsFrom tabs 0 i h
    simpa [buildSeasons] using this

/-- C4 witness: the range expansion theorem applied to the anchor text
5-8 and a one-tab page. -/
theorem torec_range_anchor_expansion_witness :
    dget (addAnchor [] "u" "5-8") (.intK 6) = some "u" ∧
    dget (buildSeasons [[("u", "5-8")]]) (0 + 1) = some (processTab [[("u", "5-8")]][0]) :=
  ⟨(torec_range_anchor_expansion.1 [] "u" "5-8" "5" "8" 5 8 rfl (by decide) rfl rfl
      (by decide)).1 6 (by decide) (by decide),
    torec_range_anchor_expansion.2 [[("u", "5-8")]] 0 (by decide)⟩

/-- C5: an anchor matching as a single episode number is stored under the
str form of the number, and when a season's tabs hold only single-number
or unmatched anchors, the final lookup — which indexes with the caller's
int episode value — never finds anything. -/
theorem torec_single_anchor_unfindable :
    (∀ (m : List (EpKey × String)) (href text sa : String),
      findEpisodePair text.data = some (sa, "") →
      addAnchor m href text = dinsert m (.strK sa) href) ∧
    (∀ (env : Env) (url : String) (s e : Nat),
      allSingleAnchors (env.seasonsTabs url) = true →
      TorecProvider._get_episode_subtitles_from_series_page env url (some s) (some e) =
        none) := by
  constructor
  · intro m href text sa hf
    unfold addAnchor
    rw [hf]
    simp
  · intro env url s e hall
    unfold TorecProvider._get_episode_subtitles_from_series_page
    cases htabs : env.seasonsTabs url with
    | nil => rfl
    | cons t ts =>
      rw [htabs] at hall
      simp only []
      cases hd : dget (buildSeasons (t :: ts)) s with
      | none => simp [dget]
      | some l =>
        obtain ⟨tab, htab, hl⟩ := dget_buildSeasonsFrom_mem (t :: ts) 0 s l hd
        subst hl
        simp only [Option.getD_some]
        apply dget_foldl_addAnchor_single tab [] e ?_ rfl
        have := List.all_eq_true.mp hall tab htab
        simpa using this

/-- C5 witness: the lookup theorem applied to a concrete page with one
single-number anchor for the requested episode. -/
theorem torec_single_anchor_unfindable_witness :
    TorecProvider._get_episode_subtitles_from_series_page envC5w "x" (some 1) (some 7) =
      none :=
  torec_single_anchor_unfindable.2 envC5w "x" 1 7 (by decide)

/-- C1: for every Episode video, list_subtitles invokes query with the
positional arguments (video.series, season, episode), so query receives
the video's season bound to its year parameter and the video's episode
bound to its season parameter; and on every video kind (Movie included)
query's episode parameter stays None. -/
theorem torec_list_subtitles_positional_shift :
    (∀ (env : Env) (v : EpisodeVid) (langs : List Language),
      TorecProvider.list_subtitles env (.ep v) langs =
        (TorecProvider.query env v.series (.intV v.season) (some v.episode) none).map
          (fun subs => subs.filter (fun s => langs.contains s.language))) ∧
    (∀ (env : Env) (m : MovieVid) (langs : List Language),
      TorecProvider.list_subtitles env (.mov m) langs =
        (TorecProvider.query env m.title .noneV none none).map
          (fun subs => subs.filter (fun s => langs.contains s.language))) := by
  constructor
  · intro env v langs
    cases hq : TorecProvider.query env v.series (.intV v.season) (some v.episode) none with
    | error e => simp [TorecProvider.list_subtitles, pyYearOfOptNat, hq, Except.map]
    | ok subs => simp [TorecProvider.list_subtitles, pyYearOfOptNat, hq, Except.map]
  · intro env m langs
    cases hq : TorecProvider.query env m.title .noneV none none with
    | error e => simp [TorecProvider.list_subtitles, pyYearOfOptNat, hq, Except.map]
    | ok subs => simp [TorecProvider.list_subtitles, pyYearOfOptNat, hq, Except.map]

/-- C2 counterexample: on a concrete matching url the stored subtitle id
is the one character string h (the first character of the whole match,
which is the first character of the url), which is neither the first
character of the numeric group (1) nor the full numeric id (1234). -/
theorem torec_sub_id_first_char_cex :
    reMatchSubId urlC2 = some (urlC2, "1234") ∧
    extractedSubtitleId urlC2 = some "h" ∧
    "h" ≠ "1" ∧ "h" ≠ "1234" :=
  ⟨rfl, rfl, by decide, by decide⟩

/-- C2 amended: whenever the url matches the pattern .+sub_id=(\d+), the
stored subtitle id is the first character of the entire match (group 0),
which — the match being anchored at the start of the url — is the first
character of the url itself, not any part of the numeric id group. -/
theorem torec_sub_id_extraction (url g0 g1 : String)
    (h : reMatchSubId url = some (g0, g1)) :
    extractedSubtitleId url = some ⟨g0.data.take 1⟩ ∧
    g0.data.take 1 = url.data.take 1 := by
  constructor
  · unfold extractedSubtitleId
    rw [h, Option.map_some']
  · unfold reMatchSubId at h
    cases hp : subIdPos url.data with
    | none => rw [hp] at h; exact absurd h (by simp)
    | some i =>
      rw [hp] at h
      simp only [Option.some.injEq, Prod.mk.injEq] at h
      have h0 : g0 = ⟨url.data.take
          (i + 7 + ((url.data.drop (i + 7)).takeWhile Char.isDigit).length)⟩ := h.1.symm
      subst h0
      show (url.data.take
          (i + 7 + ((url.data.drop (i + 7)).takeWhile Char.isDigit).length)).take 1 =
        url.data.take 1
      rw [List.take_take]
      congr 1
      omega

/-- C2 witness: the amended extraction theorem applied to a concrete
matching url. -/
theorem torec_sub_id_extraction_witness :
    extractedSubtitleId urlC2w = some ⟨urlC2w.data.take 1⟩ ∧
    urlC2w.data.take 1 = urlC2w.data.take 1 :=
  torec_sub_id_extraction urlC2w urlC2w "907" rfl

/-- C8 counterexample: on a logged-in provider whose logout GET answers
404, terminate raises the HTTP error and returns with the client still
unclosed, refuting that the client is closed on every exit path. -/
theorem torec_terminate_failed_logout_cex :
    TorecProvider.terminate stC8 404 = (stC8, .error (.httpError 404)) ∧
    stC8.session = some { closed := false } :=
  ⟨rfl, rfl⟩

/-- C8 amended: terminate, when logged in, issues the logout GET and
raises on a non-2xx status — and on that path the client is left
unclosed; on every other path (logout succeeded, or not logged in) the
client is closed, and a successful logout also clears the logged-in
flag. -/
theorem torec_terminate_paths (st : PState) (sess : SessionSt) (status : Nat)
    (hs : st.session = some sess) :
    (st.logged_in = true → is2xx status = false →
      TorecProvider.terminate st status = (st, .error (.httpError status))) ∧
    (st.logged_in = true → is2xx status = true →
      (TorecProvider.terminate st status).1.session = some { closed := true } ∧
      (TorecProvider.terminate st status).1.logged_in = false ∧
      (TorecProvider.terminate st status).2 = .ok ()) ∧
    (st.logged_in = false →
      (TorecProvider.terminate st status).1.session = some { closed := true } ∧
      (TorecProvider.terminate st status).2 = .ok ()) := by
  refine ⟨?_, ?_, ?_⟩
  · intro hl hst
    simp [TorecProvider.terminate, hs, hl, hst]
  · intro hl hst
    simp [TorecProvider.terminate, hs, hl, hst]
  · intro hl
    simp [TorecProvider.terminate, hs, hl]

/-- C8 witness: the terminate path theorem applied to a concrete
not-logged-in state with an open client. -/
theorem torec_terminate_paths_witness :
    (TorecProvider.terminate stC8w 200).1.session = some { closed := true } ∧
    (TorecProvider.terminate stC8w 200).2 = .ok () :=
  (torec_terminate_paths stC8w { closed := false } 200 rfl).2.2 rfl

/-- C9: constructing a provider with only a username or only a password
raises ConfigurationError in both directions, while supplying both or
neither succeeds. -/
theorem torec_provider_config_validation :
    ∀ (u p : String),
      TorecProvider.init (some u) none = .error .configurationError ∧
      TorecProvider.init none (some p) = .error .configurationError ∧
      TorecProvider.init (some u) (some p) =
        .ok { session := none, username := some u, password := some p,
              logged_in := false } ∧
      TorecProvider.init none none =
        .ok { session := none, username := none, password := none,
              logged_in := false } := by
  intro u p
  refine ⟨?_, ?_, ?_, ?_⟩ <;> simp [TorecProvider.init]

/-- Membership in a fold that appends the image of each element. -/
theorem mem_foldl_append (f : String → List String) (l : List String) (x : String) :
    ∀ ini : List String,
      (x ∈ l.foldl (fun acc r => acc ++ f r) ini ↔ x ∈ ini ∨ ∃ r ∈ l, x ∈ f r) := by
  induction l with
  | nil => intro ini; simp
  | cons a as ih =>
    intro ini
    rw [List.foldl_cons, ih]
    simp [List.mem_append, or_assoc]

/-- A label different from the singleton content is never in a guarded
singleton. -/
theorem not_mem_ite_nil (c : Prop) [Decidable c] (x y : String) (hxy : x ≠ y) :
    x ∉ (if c then [y] else ([] : List String)) := by
  split <;> simp [hxy]

/-- A label different from the singleton content is never in a doubly
guarded singleton. -/
theorem not_mem_ite_ite_nil (c d : Prop) [Decidable c] [Decidable d] (x y : String)
    (hxy : x ≠ y) :
    x ∉ (if c then (if d then [y] else []) else ([] : List String)) := by
  split
  · split <;> simp [hxy]
  · simp

/-- C6 counterexample: a record whose season equals the video's season
(both 0, a specials season) gets no season label, because the code guards
each label with the truthiness of the video field before comparing. -/
theorem torec_get_matches_season_zero_cex :
    (TorecSubtitle.get_matches id (fun _ => []) (fun _ => []) subC6 (.ep vidC6)).map
      (fun l => l.contains "season") = .ok false ∧
    subC6.season = some vidC6.season :=
  ⟨rfl, rfl⟩

/-- C6 amended: for an Episode video and a record whose series and title
fields are strings, and provided the release guesser contributes none of
the three structural labels, get_matches adds series exactly when the
video's series is nonempty and the sanitized names are equal, season
exactly when the video's season is nonzero and the seasons are equal, and
episode exactly when the video's episode is nonzero and the episodes are
equal — each condition independently of the others. -/
theorem torec_get_matches_episode_labels (san : String → String)
    (gE gM : String → List String) (sub : TorecSubtitle) (v : EpisodeVid)
    (s0 t0 : String) (hs : sub.series = .str s0) (ht : sub.title = .str t0)
    (hg : ∀ r : String, "series" ∉ gE r ∧ "season" ∉ gE r ∧ "episode" ∉ gE r) :
    ∃ l, TorecSubtitle.get_matches san gE gM sub (.ep v) = .ok l ∧
      (("series" ∈ l) ↔ (v.series ≠ "" ∧ san s0 = san v.series)) ∧
      (("season" ∈ l) ↔ (v.season ≠ 0 ∧ sub.season = some v.season)) ∧
      (("episode" ∈ l) ↔ (v.episode ≠ 0 ∧ sub.episode = some v.episode)) := by
  have hred : TorecSubtitle.get_matches san gE gM sub (.ep v) = .ok
      ((if v.series ≠ "" then (if san s0 = san v.series then ["series"] else []) else []) ++
        (if v.season ≠ 0 ∧ sub.season = some v.season then ["season"] else []) ++
        (if v.episode ≠ 0 ∧ sub.episode = some v.episode then ["episode"] else []) ++
        (sub.releases_to_dl_codes_mapping.map Prod.fst).foldl
          (fun acc r => acc ++ gE r) [] ++
        (if v.title ≠ "" then (if san t0 = san v.title then ["title"] else []) else [])) := by
    unfold TorecSubtitle.get_matches
    rw [hs, ht]
    by_cases h1 : v.series = "" <;> by_cases h4 : v.title = "" <;>
      simp [h1, h4, sanitizeVal, Except.map]
  have hgS : "series" ∉ (sub.releases_to_dl_codes_mapping.map Prod.fst).foldl
      (fun acc r => acc ++ gE r) [] := by
    rw [mem_foldl_append]
    rintro (h | ⟨r, _, hmem⟩)
    · simp at h
    · exact (hg r).1 hmem
  have hgSe : "season" ∉ (sub.releases_to_dl_codes_mapping.map Prod.fst).foldl
      (fun acc r => acc ++ gE r) [] := by
    rw [mem_foldl_append]
    rintro (h | ⟨r, _, hmem⟩)
    · simp at h
    · exact (hg r).2.1 hmem
  have hgE : "episode" ∉ (sub.releases_to_dl_codes_mapping.map Prod.fst).foldl
      (fun acc r => acc ++ gE r) [] := by
    rw [mem_foldl_append]
    rintro (h | ⟨r, _, hmem⟩)
    · simp at h
    · exact (hg r).2.2 hmem
  refine ⟨_, hred, ?_, ?_, ?_⟩
  · have nB : "series" ∉ (if v.season ≠ 0 ∧ sub.season = some v.season then
        ["season"] else ([] : List String)) := not_mem_ite_nil _ _ _ (by decide)
    have nC : "series" ∉ (if v.episode ≠ 0 ∧ sub.episode = some v.episode then
        ["episode"] else ([] : List String)) := not_mem_ite_nil _ _ _ (by decide)
    have nD : "series" ∉ (if v.title ≠ "" then (if san t0 = san v.title then
        ["title"] else []) else ([] : List String)) := not_mem_ite_ite_nil _ _ _ _ (by decide)
    simp only [List.mem_append, hgS, nB, nC, nD, or_false]
    by_cases h1 : v.series = "" <;> by_cases h2 : san s0 = san v.series <;>
      simp [h1, h2]
  · have nA : "season" ∉ (if v.series ≠ "" then (if san s0 = san v.series then
        ["series"] else []) else ([] : List String)) := not_mem_ite_ite_nil _ _ _ _ (by decide)
    have nC : "season" ∉ (if v.episode ≠ 0 ∧ sub.episode = some v.episode then
        ["episode"] else ([] : List String)) := not_mem_ite_nil _ _ _ (by decide)
    have nD : "season" ∉ (if v.title ≠ "" then (if san t0 = san v.title then
        ["title"] else []) else ([] : List String)) := not_mem_ite_ite_nil _ _ _ _ (by decide)
    simp only [List.mem_append, hgSe, nA, nC, nD, or_false, false_or]
    by_cases h2 : (v.season ≠ 0 ∧ sub.season = some v.season) <;> simp [h2]
  · have nA : "episode" ∉ (if v.series ≠ "" then (if san s0 = san v.series then
        ["series"] else []) else ([] : List String)) := not_mem_ite_ite_nil _ _ _ _ (by decide)
    have nB : "episode" ∉ (if v.season ≠ 0 ∧ sub.season = some v.season then
        ["season"] else ([] : List String)) := not_mem_ite_nil _ _ _ (by decide)
    have nD : "episode" ∉ (if v.title ≠ "" then (if san t0 = san v.title then
        ["title"] else []) else ([] : List String)) := not_mem_ite_ite_nil _ _ _ _ (by decide)
    simp only [List.mem_append, hgE, nA, nB, nD, or_false, false_or]
    by_cases h3 : (v.episode ≠ 0 ∧ sub.episode = some v.episode) <;> simp [h3]

/-- C6 witness: the label theorem applied to a concrete matching record
and video. -/
theorem torec_get_matches_episode_labels_witness :
    ∃ l, TorecSubtitle.get_matches id (fun _ => []) (fun _ => []) subC6w (.ep vidC6w) =
        .ok l ∧
      (("series" ∈ l) ↔ (vidC6w.series ≠ "" ∧
        id "Game of Thrones" = id vidC6w.series)) ∧
      (("season" ∈ l) ↔ (vidC6w.season ≠ 0 ∧ subC6w.season = some vidC6w.season)) ∧
      (("episode" ∈ l) ↔ (vidC6w.episode ≠ 0 ∧ subC6w.episode = some vidC6w.episode)) :=
  torec_get_matches_episode_labels id (fun _ => []) (fun _ => []) subC6w vidC6w
    "Game of Thrones" "Mhysa" rfl rfl (fun _ => ⟨by simp, by simp, by simp⟩)

/-- Every record the listing step succeeds with carries the fixed
language, the false hearing-impaired flag, the listing url as page link,
the current title variable in both its series and title fields, and the
supplied season and episode. -/
theorem buildListing_fields (env : Env) (url : String) (t : TitleVal)
    (s e : Option Nat) (sub : TorecSubtitle)
    (h : buildSubtitleFromListing env url t s e = .ok sub) :
    sub.language = Language.fromalpha2 "he" ∧ sub.hearing_impaired = false ∧
    sub.page_link = url ∧ sub.series = t ∧ sub.title = t ∧
    sub.season = s ∧ sub.episode = e := by
  unfold buildSubtitleFromListing at h
  split at h
  · exact absurd h (by simp)
  · split at h
    · exact absurd h (by simp)
    · split at h
      · exact absurd h (by simp)
      · rw [Except.ok.injEq] at h
        subst h
        exact ⟨rfl, rfl, rfl, rfl, rfl, rfl, rfl⟩

/-- C7 counterexample: with a year supplied, the year loop's variable
shadows the query title, so the returned record's series and title fields
hold the selected candidate Suggestion instead of the supplied title
string t. -/
theorem torec_query_title_shadow_cex :
    TorecProvider.query envC7 "t" (.strV "2003") (some 1) (some 5) = .ok [subC7] ∧
    subC7.series ≠ TitleVal.str "t" ∧ subC7.title ≠ TitleVal.str "t" :=
  ⟨rfl, by decide, by decide⟩

/-- C7 amended: every record query returns comes as a single-element list
and carries the fixed Hebrew language, hearing-impaired false, the
resolved listing-page url as its page link (both its series and title
fields holding the current title variable), and the supplied season and
episode; its series and title fields hold the supplied title exactly in
the runs where no truthy year was given — a year makes the loop variable
shadow the title first. -/
theorem torec_query_record_fields :
    (∀ (env : Env) (url : String) (t : TitleVal) (s e : Option Nat)
      (sub : TorecSubtitle),
      buildSubtitleFromListing env url t s e = .ok sub →
      sub.language = Language.fromalpha2 "he" ∧ sub.hearing_impaired = false ∧
      sub.page_link = url ∧ sub.series = t ∧ sub.title = t ∧
      sub.season = s ∧ sub.episode = e) ∧
    (∀ (env : Env) (title : String) (year : PyYear) (season episode : Option Nat)
      (l : List TorecSubtitle),
      TorecProvider.query env title year season episode = .ok l →
      l = [] ∨ ∃ sub, l = [sub] ∧
        sub.language = Language.fromalpha2 "he" ∧ sub.hearing_impaired = false ∧
        sub.season = season ∧ sub.episode = episode ∧
        (pyTruthyYear year = false →
          sub.series = TitleVal.str title ∧ sub.title = TitleVal.str title)) := by
  constructor
  · exact buildListing_fields
  · intro env title year season episode l h
    simp only [TorecProvider.query] at h
    split at h
    · exact absurd h (by simp)
    · split at h
      · rw [Except.ok.injEq] at h
        exact Or.inl h.symm
      · split at h
        · -- series branch
          split at h
          · rw [Except.ok.injEq] at h
            exact Or.inl h.symm
          · split at h
            · exact absurd h (by simp)
            · rw [Except.ok.injEq] at h
              exact Or.inl h.symm
            · rename_i c0 crest url_title titleVar heq
              have hTV : pyTruthyYear year = false → titleVar = TitleVal.str title := by
                intro hf
                simp only [hf, Bool.false_eq_true, if_false] at heq
                simp only [Except.ok.injEq, Option.some.injEq, Prod.mk.injEq] at heq
                exact heq.2.symm
              split at h
              · rw [Except.ok.injEq] at h
                exact Or.inl h.symm
              · split at h
                · rw [Except.ok.injEq] at h
                  exact Or.inl h.symm
                · split at h
                  · exact absurd h (by simp)
                  · rename_i w hw sub heq2
                    rw [Except.ok.injEq] at h
                    subst h
                    obtain ⟨f1, f2, _, f4, f5, f6, f7⟩ :=
                      buildListing_fields _ _ _ _ _ _ heq2
                    refine Or.inr ⟨sub, rfl, f1, f2, f6, f7, fun hf => ?_⟩
                    rw [f4, f5, hTV hf]
                    exact ⟨rfl, rfl⟩
        · -- movie branch
          split at h
          · rw [Except.ok.injEq] at h
            exact Or.inl h.symm
          · split at h
            · exact absurd h (by simp)
            · rw [Except.ok.injEq] at h
              exact Or.inl h.symm
            · rename_i c0 crest url_title titleVar heq
              have hTV : pyTruthyYear year = false → titleVar = TitleVal.str title := by
                intro hf
                simp only [hf, Bool.false_eq_true, if_false] at heq
                simp only [Except.ok.injEq, Option.some.injEq, Prod.mk.injEq] at heq
                exact heq.2.symm
              split at h
              · exact absurd h (by simp)
              · rename_i sub heq2
                rw [Except.ok.injEq] at h
                subst h
                obtain ⟨f1, f2, _, f4, f5, f6, f7⟩ :=
                  buildListing_fields _ _ _ _ _ _ heq2
                refine Or.inr ⟨sub, rfl, f1, f2, f6, f7, fun hf => ?_⟩
                rw [f4, f5, hTV hf]
                exact ⟨rfl, rfl⟩

/-- C7 witness: the record fields theorem applied to a concrete run with
no suggestions, whose result is the empty list. -/
theorem torec_query_record_fields_witness :
    ([] : List TorecSubtitle) = [] ∨ ∃ sub, ([] : List TorecSubtitle) = [sub] ∧
      sub.language = Language.fromalpha2 "he" ∧ sub.hearing_impaired = false ∧
      sub.season = some 1 ∧ sub.episode = some 2 ∧
      (pyTruthyYear .noneV = false →
        sub.series = TitleVal.str "t" ∧ sub.title = TitleVal.str "t") :=
  torec_query_record_fields.2 envC7w "t" .noneV (some 1) (some 2) [] rfl

/-- C10: initialize performs the login POST exactly when both username
and password were supplied at construction; when the POST is performed,
it raises AuthenticationError carrying the username if and only if the
response body is exactly the single byte 49 (the literal 1), and on any
other body it sets the logged-in flag and returns normally. -/
theorem torec_initialize_login (st : PState) (body : List Nat) :
    ((TorecProvider.initializeProvider st body).2.1 = true ↔
      (st.username ≠ none ∧ st.password ≠ none)) ∧
    (st.username ≠ none → st.password ≠ none →
      (((TorecProvider.initializeProvider st body).2.2 =
          .error (.authenticationError st.username)) ↔ body = [49]) ∧
      (body ≠ [49] →
        (TorecProvider.initializeProvider st body).1.logged_in = true ∧
        (TorecProvider.initializeProvider st body).2.2 = .ok ())) := by
  by_cases hb : st.username ≠ none ∧ st.password ≠ none
  · by_cases h49 : body = [49]
    · constructor
      · simp [TorecProvider.initializeProvider, hb, h49]
      · intro _ _
        constructor
        · simp [TorecProvider.initializeProvider, hb, h49]
        · intro hne; exact absurd h49 hne
    · constructor
      · simp [TorecProvider.initializeProvider, hb, h49]
      · intro _ _
        constructor
        · simp [TorecProvider.initializeProvider, hb, h49]
        · intro _; simp [TorecProvider.initializeProvider, hb, h49]
  · constructor
    · simp [TorecProvider.initializeProvider, hb]
    · intro hu hp; exact absurd ⟨hu, hp⟩ hb

/-- On a str year the chained series comparison never raises and computes
the boolean test. -/
theorem seriesYearTestE_str (p : String × String) (y : String) :
    seriesYearTestE p (.strV y) = .ok (seriesYearTestStr p y) := by
  unfold seriesYearTestE seriesYearTestStr pyLeStrYear pyLeYearStr
  by_cases h : p.2 = ""
  · simp [h]
  · by_cases hb : pyStrLe p.1 y <;> simp [h, hb]

/-- When every candidate reaches the series year test and fails it, the
series year loop falls off the end without choosing a candidate. -/
theorem seriesYearLoop_none (env : Env) (y : String) :
    ∀ l : List Suggestion, (∀ c ∈ l, seriesCandFailsB env y c = true) →
      seriesYearLoop env (.strV y) l = .ok none := by
  intro l
  induction l with
  | nil => intro _; simp [seriesYearLoop]
  | cons c rest ih =>
    intro h
    have hc := h c (List.mem_cons_self c rest)
    unfold seriesCandFailsB at hc
    cases h1 : env.seriesYearText (serverUrl ++ c.data) with
    | none => rw [h1] at hc; exact absurd hc (by simp)
    | some txt =>
      simp only [h1] at hc
      cases h2 : findYearPair txt.data with
      | none => rw [h2] at hc; exact absurd hc (by simp)
      | some p =>
        simp only [h2] at hc
        have htest : seriesYearTestStr p y = false := by simpa using hc
        simp only [seriesYearLoop, h1, h2, seriesYearTestE_str, htest]
        exact ih (fun x hx => h x (List.mem_cons_of_mem c hx))

/-- When every candidate reaches the movie year test and fails it, the
movie year loop falls off the end without choosing a candidate. -/
theorem movieYearLoop_none (env : Env) (y : String) :
    ∀ l : List Suggestion, (∀ c ∈ l, movieCandFailsB env y c = true) →
      movieYearLoop env (.strV y) l = .ok none := by
  intro l
  induction l with
  | nil => intro _; simp [movieYearLoop]
  | cons c rest ih =>
    intro h
    have hc := h c (List.mem_cons_self c rest)
    unfold movieCandFailsB at hc
    cases h1 : env.movieYearText (serverUrl ++ c.data) with
    | none => rw [h1] at hc; exact absurd hc (by simp)
    | some txt =>
      simp only [h1] at hc
      cases h2 : findFirstDigitRun txt.data with
      | none => rw [h2] at hc; exact absurd hc (by simp)
      | some my =>
        simp only [h2] at hc
        have htest : (my ≠ "" && pyEqYearStr (.strV y) my) = false := by
          rwa [Bool.not_eq_true'] at hc
        simp only [movieYearLoop, h1, h2, htest]
        exact ih (fun x hx => h x (List.mem_cons_of_mem c hx))

/-- C3 counterexample: a sole series candidate whose scraped year text is
the single year 2003 — which contains the requested year 1999 neither as
an inclusive range nor as an open-ended range start at most year, nor by
equality — is nevertheless selected, and the query returns a record
instead of the empty list the claim requires. -/
theorem torec_query_year_containment_cex :
    TorecProvider.query envC3 "t" (.strV "1999") (some 1) (some 5) = .ok [subC3] ∧
    envC3.seriesYearText "http://torec.net/s1" = some "2003" ∧
    [subC3] ≠ ([] : List TorecSubtitle) :=
  ⟨rfl, rfl, by decide⟩

/-- C3 amended: when a nonempty str year is supplied and every
type-matching candidate reaches its year test and fails it — for series
the string comparison start at most year at most end on the pair produced
by the first regex match of the scraped text (whose second group is
mandatory, so single-year or open-ended texts parse with an empty start
and the test degenerates to year at most end, the open-ended branch being
unreachable), for movies string equality with the first scraped digit
run — query returns an empty list rather than raising. -/
theorem torec_query_year_no_match (env : Env) (title y : String)
    (season episode : Option Nat)
    (hst : is2xx env.searchStatus = true) (hy : y ≠ "")
    (hser : ∀ c ∈ env.suggestions.filter
        (fun i => i.type = TorecMediaTypes.SERIES_WITH_SUBTITLES.val),
      seriesCandFailsB env y c = true)
    (hmov : ∀ c ∈ env.suggestions.filter
        (fun i => i.type = TorecMediaTypes.MOVIE_WITH_SUBTITLES.val),
      movieCandFailsB env y c = true) :
    TorecProvider.query env title (.strV y) season episode = .ok [] := by
  have hy2 : pyTruthyYear (.strV y) = true := by simp [pyTruthyYear, hy]
  unfold TorecProvider.query
  cases hsugg : env.suggestions with
  | nil => simp [hst, hsugg]
  | cons s0 srest =>
    rw [hsugg] at hser hmov
    by_cases hbr : (pyTruthyNatOpt season && pyTruthyNatOpt episode) = true
    · cases hflt : (s0 :: srest).filter
          (fun i => i.type = TorecMediaTypes.SERIES_WITH_SUBTITLES.val) with
      | nil => simp [hst, hsugg, hbr, hflt]
      | cons c0 crest =>
        rw [hflt] at hser
        have hloop : seriesYearLoop env (.strV y) (c0 :: crest) = .ok none :=
          seriesYearLoop_none env y _ hser
        simp [hst, hsugg, hbr, hflt, hy2, hloop]
    · cases hflt : (s0 :: srest).filter
          (fun i => i.type = TorecMediaTypes.MOVIE_WITH_SUBTITLES.val) with
      | nil => simp [hst, hsugg, hbr, hflt]
      | cons c0 crest =>
        rw [hflt] at hmov
        have hloop : movieYearLoop env (.strV y) (c0 :: crest) = .ok none :=
          movieYearLoop_none env y _ hmov
        simp [hst, hsugg, hbr, hflt, hy2, hloop]

/-- C3 witness: the no-year-match theorem applied to a concrete
environment where both candidates fail their tests for the year 2010. -/
theorem torec_query_year_no_match_witness :
    TorecProvider.query envC3w "t" (.strV "2010") (some 1) (some 2) = .ok [] :=
  torec_query_year_no_match envC3w "t" "2010" (some 1) (some 2) rfl (by decide)
    (by decide) (by decide)

/-- C10 witness: the initialize theorem applied to a concrete state with
both credentials and a non-failing login body. -/
theorem torec_initialize_login_witness :
    (TorecProvider.initializeProvider stC10w [50]).1.logged_in = true ∧
    (TorecProvider.initializeProvider stC10w [50]).2.2 = .ok () :=
  ((torec_initialize_login stC10w [50]).2 (by decide) (by decide)).2 (by decide)

end Torec
